import Mathlib

/-!
Verification of the pymarquise binding (`src/marquise/marquise.py` and
`src/marquise/marquise_cffi.py`) against its natural-language specification.

The binding is pure Python around the native libmarquise library.  We embed
the Python methods of class `Marquise` shallowly: each method becomes a Lean
function on an explicit object state.  The native library is outside the
Python sources; where its behaviour decides a claim it is modelled from the
specification (definitions marked `Modelled from the spec:`), and where only
its return value matters (statuses, NULL results, exceptions raised through
CFFI) it is passed in as an explicit oracle argument, so theorems quantify
over every behaviour the native side can exhibit.
-/

/-- Modelled from the spec: `safe_encode(s, 'utf8')` (oslo_strutils, not under
src) encodes a Python string to its UTF-8 bytes.  Standard UTF-8 encoding of
one Unicode code point, as a list of byte values. -/
def utf8EncodeCharNat (c : Nat) : List Nat :=
  if c < 0x80 then [c]
  else if c < 0x800 then
    [0xC0 ||| (c >>> 6), 0x80 ||| (c &&& 0x3F)]
  else if c < 0x10000 then
    [0xE0 ||| (c >>> 12), 0x80 ||| ((c >>> 6) &&& 0x3F), 0x80 ||| (c &&& 0x3F)]
  else
    [0xF0 ||| (c >>> 18), 0x80 ||| ((c >>> 12) &&& 0x3F),
     0x80 ||| ((c >>> 6) &&& 0x3F), 0x80 ||| (c &&& 0x3F)]

/-- UTF-8 byte encoding of a whole string: what `safe_encode(s, 'utf8')`
returns, hence the byte content of `cstring(s)` (marquise_cffi.py line 22). -/
def utf8Bytes (s : String) : List Nat :=
  s.data.flatMap (fun c => utf8EncodeCharNat c.toNat)

/-- `len_cstring(s)` (marquise_cffi.py lines 24-26): the length in bytes of
the UTF-8 encoding of `s`. -/
def len_cstring (s : String) : Nat :=
  (utf8Bytes s).length

/-- Python `len(s)` on a string: the number of code points, not bytes. -/
def pyLen (s : String) : Nat :=
  s.data.length

/-- A native marquise context as obtained from `marquise_init`: the binding
reads its two spool path fields (marquise.py lines 30-31). -/
structure MarquiseCtx where
  spool_path_points : String
  spool_path_contents : String
deriving DecidableEq, Repr

/-- The state of a Python `Marquise` object: the (possibly closed) native
context handle and the two spool paths copied out of it. -/
structure MarquiseState where
  marquise_ctx : Option MarquiseCtx
  spool_path_points : String
  spool_path_contents : String
deriving DecidableEq, Repr

/-- Python exceptions raised by the binding. -/
inductive PyError
  | valueError (msg : String)
  | typeError (msg : String)
  | runtimeError (msg : String)
deriving DecidableEq, Repr

/-- Calls into the native libmarquise library, recorded as a trace so that
theorems can speak about which native writes and frees a method performs. -/
inductive NativeCall
  | shutdown (ctx : MarquiseCtx)
  | sendSimple (ctx : MarquiseCtx) (address timestamp value : Nat)
  | sendExtended (ctx : MarquiseCtx) (address timestamp : Nat)
      (value : List Nat) (length : Nat)
  | newSource (fields values : List (List Nat)) (count : Nat)
  | updateSource (ctx : MarquiseCtx) (address : Nat) (handle : Nat)
  | freeSource (handle : Nat)
deriving DecidableEq, Repr

/-- Outcome of one binding method: the object state afterwards, the Python
result (normal return or raised exception), and the native calls made. -/
structure CallResult (α : Type) where
  state : MarquiseState
  result : Except PyError α
  calls : List NativeCall
deriving Repr

/-- The errno value EINVAL (errno.EINVAL on Linux). -/
def EINVAL : Nat := 22

/-- Namespace validity per the spec: matches `[a-z0-9]+` (nonempty, all
lowercase alphanumeric). -/
def namespaceValid (ns : String) : Bool :=
  decide (ns.data ≠ []) &&
    ns.data.all (fun c =>
      ((97 ≤ c.toNat) && (c.toNat ≤ 122)) || ((48 ≤ c.toNat) && (c.toNat ≤ 57)))

/-- Base directory of the spool files (a well-known base directory per spec
section 6; the concrete prefix is a convention of the native library). -/
def spoolBase : String := "/var/spool/marquise/"

/-- Modelled from the spec: `marquise_init` of libmarquise (not under src).
Validates the namespace against `[a-z0-9]+`; on violation it returns NULL
with errno set to EINVAL, otherwise it returns a context holding two
distinct, namespace-derived spool paths (one per stream type).  The result
pairs the optional context with the errno value after the call. -/
def marquise_init (ns : String) : Option MarquiseCtx × Nat :=
  if namespaceValid ns then
    (some { spool_path_points := spoolBase ++ ns ++ "/points"
            spool_path_contents := spoolBase ++ ns ++ "/contents" }, 0)
  else
    (none, EINVAL)

namespace Marquise

/-- `Marquise.__init__` (marquise.py lines 14-31): call `marquise_init`; on a
NULL context raise ValueError when errno is EINVAL, RuntimeError otherwise;
on success copy the two spool paths out of the context. -/
def init (ns : String) : Except PyError MarquiseState :=
  match marquise_init ns with
  | (none, e) =>
    if e = EINVAL then
      .error (.valueError ("Invalid namespace: " ++ ns))
    else
      .error (.runtimeError "Something went wrong, got NULL instead of a marquise_ctx.")
  | (some ctx, _) =>
    .ok { marquise_ctx := some ctx
          spool_path_points := ctx.spool_path_points
          spool_path_contents := ctx.spool_path_contents }

/-- `Marquise.close` (marquise.py lines 42-60): a no-op on an already-closed
handle; otherwise call `marquise_shutdown` on the native context and set the
handle to None. -/
def close (s : MarquiseState) : MarquiseState × List NativeCall :=
  match s.marquise_ctx with
  | none => (s, [])
  | some ctx => ({ s with marquise_ctx := none }, [.shutdown ctx])

/-- `Marquise.current_timestamp` (marquise.py lines 72-75) returns
`int(time.time() * 1000000000)`.  The wall clock is an oracle: `timeNs` is
the value of that expression at the moment of the call. -/
def current_timestamp (timeNs : Nat) : Nat := timeNs

/-- `Marquise.hash_identifier` (marquise.py lines 62-70) passes
`cstring(identifier)` together with `len(identifier)` — the code-point count,
not `len_cstring` — to the native hash.  Modelled from the spec: the native
`marquise_hash_identifier(buf, len)` is a deterministic keyed hash (SipHash-2-4
with an all-zero key, per the docstring) over exactly the first `len` bytes of
`buf`; this definition is the byte window that hash actually covers. -/
def hash_identifier_window (identifier : String) : List Nat :=
  (utf8Bytes identifier).take (pyLen identifier)

/-- `Marquise.send_simple` (marquise.py lines 78-114).  Raises ValueError on
a closed handle; substitutes the current time when `timestamp` is None; casts
the three arguments to uint64; calls the native `marquise_send_simple`, whose
return status is the oracle `status`; raises RuntimeError on a nonzero status
and returns True otherwise. -/
def send_simple (s : MarquiseState) (address : Nat) (timestamp : Option Nat)
    (value : Nat) (timeNs : Nat) (status : Int) : CallResult Bool :=
  match s.marquise_ctx with
  | none =>
    { state := s
      result := .error (.valueError "Attempted to write to a closed Marquise handle.")
      calls := [] }
  | some ctx =>
    let ts := match timestamp with
      | none => current_timestamp timeNs
      | some t => t
    let c_address := address % 2 ^ 64
    let c_timestamp := ts % 2 ^ 64
    let c_value := value % 2 ^ 64
    let made := [NativeCall.sendSimple ctx c_address c_timestamp c_value]
    if status ≠ 0 then
      { state := s
        result := .error (.runtimeError "send_simple was unsuccessful")
        calls := made }
    else
      { state := s, result := .ok true, calls := made }

/-- `Marquise.send_extended` (marquise.py lines 117-147).  As `send_simple`,
but the value is a string passed as `cstring(value)` together with an explicit
byte length `len_cstring(value)` cast to size_t. -/
def send_extended (s : MarquiseState) (address : Nat) (timestamp : Option Nat)
    (value : String) (timeNs : Nat) (status : Int) : CallResult Bool :=
  match s.marquise_ctx with
  | none =>
    { state := s
      result := .error (.valueError "Attempted to write to a closed Marquise handle.")
      calls := [] }
  | some ctx =>
    let ts := match timestamp with
      | none => current_timestamp timeNs
      | some t => t
    let c_address := address % 2 ^ 64
    let c_timestamp := ts % 2 ^ 64
    let c_value := utf8Bytes value
    let c_length := len_cstring value % 2 ^ 64
    let made := [NativeCall.sendExtended ctx c_address c_timestamp c_value c_length]
    if status ≠ 0 then
      { state := s
        result := .error (.runtimeError "send_extended was unsuccessful")
        calls := made }
    else
      { state := s, result := .ok true, calls := made }

/-- `Marquise.update_source` (marquise.py lines 150-205).  Raises ValueError
on a closed handle; raises TypeError, before any native call, when a key or a
value of the metadata dict is None; builds the C field and value arrays; calls
`marquise_new_source` (oracle `newSourceResult`: None models a NULL return)
and raises ValueError on NULL; calls `marquise_update_source` (oracle
`updateResult`: an exception raised through CFFI, or the returned status),
freeing the source dict exactly as the Python code does on each path. -/
def update_source (s : MarquiseState) (address : Nat)
    (metadata_dict : List (Option String × Option String))
    (newSourceResult : Option Nat) (updateResult : Except String Int) :
    CallResult Bool :=
  match s.marquise_ctx with
  | none =>
    { state := s
      result := .error (.valueError "Attempted to write to a closed Marquise handle.")
      calls := [] }
  | some ctx =>
    if (metadata_dict.map Prod.fst).any Option.isNone then
      { state := s
        result := .error (.typeError "One of your metadata_dict keys is a Nonetype")
        calls := [] }
    else if (metadata_dict.map Prod.snd).any Option.isNone then
      { state := s
        result := .error (.typeError "One of your metadata_dict values is a Nonetype")
        calls := [] }
    else
      let c_fields := metadata_dict.map (fun p => utf8Bytes (p.1.getD ""))
      let c_values := metadata_dict.map (fun p => utf8Bytes (p.2.getD ""))
      let callNew := NativeCall.newSource c_fields c_values metadata_dict.length
      match newSourceResult with
      | none =>
        { state := s
          result := .error (.valueError "errno is set to EINVAL on invalid input")
          calls := [callNew] }
      | some handle =>
        match updateResult with
        | .error e =>
          { state := s
            result := .error (.typeError e)
            calls := [callNew, .updateSource ctx address handle, .freeSource handle] }
        | .ok status =>
          if status ≠ 0 then
            { state := s
              result := .error (.runtimeError "marquise_update_source was unsuccessful")
              calls := [callNew, .updateSource ctx address handle, .freeSource handle] }
          else
            { state := s
              result := .ok true
              calls := [callNew, .updateSource ctx address handle, .freeSource handle] }

end Marquise

/-! Fixtures: a concrete open context and the corresponding object states,
used by the witnesses below. -/

/-- A concrete native context, as `marquise_init "testns"` would produce it. -/
def ctx0 : MarquiseCtx :=
  { spool_path_points := "/var/spool/marquise/testns/points"
    spool_path_contents := "/var/spool/marquise/testns/contents" }

/-- A concrete open `Marquise` object state. -/
def openState : MarquiseState :=
  { marquise_ctx := some ctx0
    spool_path_points := ctx0.spool_path_points
    spool_path_contents := ctx0.spool_path_contents }

/-- Number of `marquise_free_source` calls on a given handle in a trace. -/
def countFree (handle : Nat) : List NativeCall → Nat
  | [] => 0
  | NativeCall.freeSource h :: rest =>
      (if h = handle then 1 else 0) + countFree handle rest
  | _ :: rest => countFree handle rest

/-- The two spool paths derived from one namespace differ (their tails
`/points` and `/contents` differ). -/
theorem points_path_ne_contents_path (ns : String) :
    spoolBase ++ ns ++ "/points" ≠ spoolBase ++ ns ++ "/contents" := by
  intro hEq
  have h1 := congrArg String.data hEq
  rw [String.data_append, String.data_append, String.data_append,
    String.data_append] at h1
  have h2 := List.append_cancel_left h1
  exact absurd h2 (by decide)

/-- C1: the claim says `hash_identifier` hashes the identifier's entire UTF-8
byte encoding.  The code passes `len(identifier)` (code points) instead of
`len_cstring(identifier)` (bytes), so for the non-ASCII identifier "é"
(UTF-8 bytes C3 A9) the native hash covers only the first byte C3: the byte
window actually hashed is a strict prefix of the full encoding. -/
theorem hash_identifier_truncates_nonascii :
    Marquise.hash_identifier_window "é" = [0xC3] ∧
    utf8Bytes "é" = [0xC3, 0xA9] ∧
    Marquise.hash_identifier_window "é" ≠ utf8Bytes "é" := by
  refine ⟨by decide, by decide, by decide⟩

/-- C2: on an open context, `update_source` with a metadata dict containing a
None key or a None value raises TypeError, makes no native call at all (no
serialization, no append), and leaves the object state unchanged. -/
theorem update_source_none_rejected_no_write
    (s : MarquiseState) (ctx : MarquiseCtx) (h : s.marquise_ctx = some ctx)
    (address : Nat) (md : List (Option String × Option String))
    (hnone : (md.map Prod.fst).any Option.isNone = true ∨
      (md.map Prod.snd).any Option.isNone = true)
    (nsr : Option Nat) (ur : Except String Int) :
    ∃ msg, Marquise.update_source s address md nsr ur =
      { state := s, result := .error (.typeError msg), calls := [] } := by
  unfold Marquise.update_source
  rw [h]
  by_cases hk : (md.map Prod.fst).any Option.isNone = true
  · exact ⟨"One of your metadata_dict keys is a Nonetype", by simp [hk]⟩
  · have hv : (md.map Prod.snd).any Option.isNone = true := by
      rcases hnone with h1 | h1
      · exact absurd h1 hk
      · exact h1
    exact ⟨"One of your metadata_dict values is a Nonetype", by simp [hk, hv]⟩

/-- C2 witness: a concrete open state and a dict whose single value is None. -/
theorem update_source_none_rejected_no_write_witness :
    openState.marquise_ctx = some ctx0 ∧
    ∃ msg, Marquise.update_source openState 7
        [(some "key", (none : Option String))] (some 1) (.ok 0) =
      { state := openState, result := .error (.typeError msg), calls := [] } :=
  ⟨rfl, update_source_none_rejected_no_write openState ctx0 rfl 7
    [(some "key", none)] (Or.inr (by decide)) (some 1) (.ok 0)⟩

/-- C3: after `close` has been called on a context, `send_simple`,
`send_extended` and `update_source` all raise the explicit closed-handle
ValueError, make no native call, and leave the state unchanged, whatever
their other arguments and whatever the native oracles would have returned. -/
theorem closed_handle_writes_fail (s0 : MarquiseState)
    (address value timeNs : Nat) (timestamp : Option Nat) (sval : String)
    (status : Int) (md : List (Option String × Option String))
    (nsr : Option Nat) (ur : Except String Int) :
    Marquise.send_simple (Marquise.close s0).1 address timestamp value timeNs status =
      { state := (Marquise.close s0).1
        result := .error (.valueError "Attempted to write to a closed Marquise handle.")
        calls := [] } ∧
    Marquise.send_extended (Marquise.close s0).1 address timestamp sval timeNs status =
      { state := (Marquise.close s0).1
        result := .error (.valueError "Attempted to write to a closed Marquise handle.")
        calls := [] } ∧
    Marquise.update_source (Marquise.close s0).1 address md nsr ur =
      { state := (Marquise.close s0).1
        result := .error (.valueError "Attempted to write to a closed Marquise handle.")
        calls := [] } := by
  cases h : s0.marquise_ctx <;>
    simp [Marquise.close, h, Marquise.send_simple, Marquise.send_extended,
      Marquise.update_source]

/-- C4: `close` is idempotent: closing an already-closed context raises no
error, performs no further native shutdown, and leaves the state unchanged. -/
theorem close_idempotent (s : MarquiseState) :
    Marquise.close (Marquise.close s).1 = ((Marquise.close s).1, []) := by
  cases h : s.marquise_ctx <;> simp [Marquise.close, h]

/-- C5: on an open context, when the timestamp argument is None the native
append receives `current_timestamp` (int(time.time() * 10^9), modelled by the
clock oracle `timeNs`); when a timestamp below 2^64 is supplied the native
append receives it unchanged.  Holds for both `send_simple` and
`send_extended`, whatever the native status. -/
theorem send_timestamp_default_and_passthrough
    (s : MarquiseState) (ctx : MarquiseCtx) (h : s.marquise_ctx = some ctx)
    (address value timeNs : Nat) (sval : String) (status : Int)
    (t : Nat) (ht : t < 2 ^ 64) (htime : timeNs < 2 ^ 64) :
    (Marquise.send_simple s address (some t) value timeNs status).calls =
      [NativeCall.sendSimple ctx (address % 2 ^ 64) t (value % 2 ^ 64)] ∧
    (Marquise.send_simple s address none value timeNs status).calls =
      [NativeCall.sendSimple ctx (address % 2 ^ 64)
        (Marquise.current_timestamp timeNs) (value % 2 ^ 64)] ∧
    (Marquise.send_extended s address (some t) sval timeNs status).calls =
      [NativeCall.sendExtended ctx (address % 2 ^ 64) t
        (utf8Bytes sval) (len_cstring sval % 2 ^ 64)] ∧
    (Marquise.send_extended s address none sval timeNs status).calls =
      [NativeCall.sendExtended ctx (address % 2 ^ 64)
        (Marquise.current_timestamp timeNs)
        (utf8Bytes sval) (len_cstring sval % 2 ^ 64)] := by
  unfold Marquise.send_simple Marquise.send_extended Marquise.current_timestamp
  rw [h]
  by_cases hs : status = 0 <;>
    simp [hs, Nat.mod_eq_of_lt ht, Nat.mod_eq_of_lt htime] <;>
    exact ⟨ht, htime, ht, htime⟩

/-- C5 witness: concrete open state, supplied timestamp 5 and clock 777. -/
theorem send_timestamp_default_and_passthrough_witness :
    openState.marquise_ctx = some ctx0 ∧ 5 < 2 ^ 64 ∧ 777 < 2 ^ 64 ∧
    ((Marquise.send_simple openState 1 (some 5) 9 777 0).calls =
      [NativeCall.sendSimple ctx0 (1 % 2 ^ 64) 5 (9 % 2 ^ 64)] ∧
    (Marquise.send_simple openState 1 none 9 777 0).calls =
      [NativeCall.sendSimple ctx0 (1 % 2 ^ 64)
        (Marquise.current_timestamp 777) (9 % 2 ^ 64)] ∧
    (Marquise.send_extended openState 1 (some 5) "v" 777 0).calls =
      [NativeCall.sendExtended ctx0 (1 % 2 ^ 64) 5
        (utf8Bytes "v") (len_cstring "v" % 2 ^ 64)] ∧
    (Marquise.send_extended openState 1 none "v" 777 0).calls =
      [NativeCall.sendExtended ctx0 (1 % 2 ^ 64)
        (Marquise.current_timestamp 777)
        (utf8Bytes "v") (len_cstring "v" % 2 ^ 64)]) :=
  ⟨rfl, by decide, by decide,
    send_timestamp_default_and_passthrough openState ctx0 rfl 1 9 777 "v" 0 5
      (by decide) (by decide)⟩

/-- C6: on an open context, `send_extended` hands the native append the full
UTF-8 byte encoding of the value together with an explicit length equal to
that encoding's byte count (`len_cstring`), so embedded null bytes and
non-ASCII bytes are passed in full, not truncated at the first null. -/
theorem send_extended_explicit_byte_length
    (s : MarquiseState) (ctx : MarquiseCtx) (h : s.marquise_ctx = some ctx)
    (address t timeNs : Nat) (value : String) (status : Int)
    (hlen : len_cstring value < 2 ^ 64) :
    (Marquise.send_extended s address (some t) value timeNs status).calls =
      [NativeCall.sendExtended ctx (address % 2 ^ 64) (t % 2 ^ 64)
        (utf8Bytes value) ((utf8Bytes value).length)] := by
  unfold Marquise.send_extended
  rw [h]
  have hcast : len_cstring value % 18446744073709551616 =
      (utf8Bytes value).length :=
    Nat.mod_eq_of_lt hlen
  by_cases hs : status = 0 <;> simp [hs, hcast]

/-- C6 witness: a value with an embedded null byte and a non-ASCII character;
its UTF-8 encoding is the four bytes 61 00 C3 A9 and the explicit length is
that byte count. -/
theorem send_extended_explicit_byte_length_witness :
    utf8Bytes "a\x00é" = [0x61, 0x00, 0xC3, 0xA9] ∧
    (utf8Bytes "a\x00é").length = 4 ∧
    len_cstring "a\x00é" < 2 ^ 64 ∧
    (Marquise.send_extended openState 1 (some 2) "a\x00é" 0 0).calls =
      [NativeCall.sendExtended ctx0 (1 % 2 ^ 64) (2 % 2 ^ 64)
        (utf8Bytes "a\x00é") ((utf8Bytes "a\x00é").length)] :=
  ⟨by decide, by decide, by decide,
    send_extended_explicit_byte_length openState ctx0 rfl 1 2 0 "a\x00é" 0
      (by decide)⟩

/-- C7: for a namespace violating `[a-z0-9]+`, opening a context raises the
distinct recoverable ValueError naming the namespace (the native init fails
with errno EINVAL), never the RuntimeError used for resource failures. -/
theorem invalid_namespace_value_error (ns : String)
    (h : namespaceValid ns = false) :
    Marquise.init ns = .error (.valueError ("Invalid namespace: " ++ ns)) := by
  unfold Marquise.init marquise_init
  simp [h]

/-- C7 witness: the namespace "BAD" (uppercase) is invalid and rejected with
the ValueError. -/
theorem invalid_namespace_value_error_witness :
    namespaceValid "BAD" = false ∧
    Marquise.init "BAD" = .error (.valueError ("Invalid namespace: " ++ "BAD")) :=
  ⟨by decide, invalid_namespace_value_error "BAD" (by decide)⟩

/-- C8: on an open context, `send_simple` and `send_extended` return True
exactly when the native append status is 0, and raise a RuntimeError on any
nonzero status — a failed append is never silently dropped. -/
theorem send_status_reporting (s : MarquiseState) (ctx : MarquiseCtx)
    (h : s.marquise_ctx = some ctx) (address value timeNs : Nat)
    (timestamp : Option Nat) (sval : String) (status : Int) :
    ((Marquise.send_simple s address timestamp value timeNs status).result =
        .ok true ↔ status = 0) ∧
    (status ≠ 0 → ∃ msg,
      (Marquise.send_simple s address timestamp value timeNs status).result =
        .error (.runtimeError msg)) ∧
    ((Marquise.send_extended s address timestamp sval timeNs status).result =
        .ok true ↔ status = 0) ∧
    (status ≠ 0 → ∃ msg,
      (Marquise.send_extended s address timestamp sval timeNs status).result =
        .error (.runtimeError msg)) := by
  unfold Marquise.send_simple Marquise.send_extended
  rw [h]
  by_cases hs : status = 0 <;> simp [hs]

/-- C8 witness: concrete open state with native status 1 (failure). -/
theorem send_status_reporting_witness :
    openState.marquise_ctx = some ctx0 ∧
    (((Marquise.send_simple openState 1 (some 2) 3 0 1).result =
        .ok true ↔ (1 : Int) = 0) ∧
    ((1 : Int) ≠ 0 → ∃ msg,
      (Marquise.send_simple openState 1 (some 2) 3 0 1).result =
        .error (.runtimeError msg)) ∧
    ((Marquise.send_extended openState 1 (some 2) "v" 0 1).result =
        .ok true ↔ (1 : Int) = 0) ∧
    ((1 : Int) ≠ 0 → ∃ msg,
      (Marquise.send_extended openState 1 (some 2) "v" 0 1).result =
        .error (.runtimeError msg))) :=
  ⟨rfl, send_status_reporting openState ctx0 rfl 1 3 0 (some 2) "v" 1⟩

/-- C9: for every namespace matching `[a-z0-9]+`, opening a context succeeds
and yields an open handle exposing two distinct, namespace-derived spool
paths, one for the points stream and one for the contents stream. -/
theorem valid_namespace_open_distinct_paths (ns : String)
    (h : namespaceValid ns = true) :
    ∃ st : MarquiseState,
      Marquise.init ns = .ok st ∧
      st.marquise_ctx.isSome = true ∧
      st.spool_path_points = spoolBase ++ ns ++ "/points" ∧
      st.spool_path_contents = spoolBase ++ ns ++ "/contents" ∧
      st.spool_path_points ≠ st.spool_path_contents := by
  refine ⟨{ marquise_ctx := some
              { spool_path_points := spoolBase ++ ns ++ "/points"
                spool_path_contents := spoolBase ++ ns ++ "/contents" }
            spool_path_points := spoolBase ++ ns ++ "/points"
            spool_path_contents := spoolBase ++ ns ++ "/contents" },
    ?_, rfl, rfl, rfl, points_path_ne_contents_path ns⟩
  unfold Marquise.init marquise_init
  simp [h]

/-- C9 witness: the valid namespace "abc123". -/
theorem valid_namespace_open_distinct_paths_witness :
    namespaceValid "abc123" = true ∧
    ∃ st : MarquiseState,
      Marquise.init "abc123" = .ok st ∧
      st.marquise_ctx.isSome = true ∧
      st.spool_path_points = spoolBase ++ "abc123" ++ "/points" ∧
      st.spool_path_contents = spoolBase ++ "abc123" ++ "/contents" ∧
      st.spool_path_points ≠ st.spool_path_contents :=
  ⟨by decide, valid_namespace_open_distinct_paths "abc123" (by decide)⟩

/-- C10: on an open context with a None-free metadata dict, once
`marquise_new_source` has returned a non-NULL handle, `update_source` calls
`marquise_free_source` on that handle exactly once on every exit path:
on success, on a TypeError raised during the native update call, and on a
nonzero update status. -/
theorem update_source_frees_source_once
    (s : MarquiseState) (ctx : MarquiseCtx) (h : s.marquise_ctx = some ctx)
    (address : Nat) (md : List (Option String × Option String))
    (hk : (md.map Prod.fst).any Option.isNone = false)
    (hv : (md.map Prod.snd).any Option.isNone = false)
    (handle : Nat) (ur : Except String Int) :
    countFree handle
      (Marquise.update_source s address md (some handle) ur).calls = 1 := by
  unfold Marquise.update_source
  rw [h]
  cases ur with
  | error e => simp [hk, hv, countFree]
  | ok status =>
    by_cases hs : status = 0 <;> simp [hk, hv, hs, countFree]

/-- C10 witness: concrete open state, a one-entry dict, handle 3, and the
nonzero-status path. -/
theorem update_source_frees_source_once_witness :
    openState.marquise_ctx = some ctx0 ∧
    countFree 3
      (Marquise.update_source openState 7 [(some "key", some "val")]
        (some 3) (.ok 1)).calls = 1 :=
  ⟨rfl, update_source_frees_source_once openState ctx0 rfl 7
    [(some "key", some "val")] (by decide) (by decide) 3 (.ok 1)⟩
